import Mathlib

/-!
Capability composition playground (`cmd/main.go`)

A shallow embedding of the Go program `cmd/main.go`: two capability interfaces
(`Sender`, `Closer`), their four implementations, the two aggregates
`AbstractConnection` and `GRPCConnection`, the generic function `closeConn`
and the driver `main`.

Conventions of the embedding

* Standard output is the list of lines written so far; `fmt.Println s`
  appends the line `s`.
* A Go call either returns a value or panics; output written before a panic
  stays written.  `Exec α` is the state-passing type of such a call.
* A Go interface value is either `nil` or carries the methods of its dynamic
  value.  Calling a method on a `nil` interface value panics with a nil
  dereference.
* A Go pointer is either `nil` or points to a value (`Ptr`).
-/

namespace Style

/-! ## Execution model -/

/-- Standard output: the lines written so far, oldest first. -/
abbrev Stdout := List String

/-- Go `byte`. -/
abbrev byte := UInt8

/-- Go `error`: `none` is the nil error, `some msg` a failure. -/
abbrev error := Option String

/-- A pointer: `none` is the nil pointer, `some v` points to `v`. -/
abbrev Ptr (α : Type) := Option α

/-- Run-time panics. -/
inductive Fault where
  /-- The run-time error "invalid memory address or nil pointer dereference". -/
  | nilDereference
  /-- An explicit `panic(msg)` raised by some implementation. -/
  | raised (msg : String)
deriving DecidableEq

/-- How a call ends: it returns a value or it panics. -/
inductive Outcome (α : Type) where
  | ret (v : α)
  | fault (p : Fault)
deriving DecidableEq

/-- True when the call returned to its caller. -/
def Outcome.completed {α : Type} : Outcome α → Bool
  | .ret _ => true
  | .fault _ => false

/-- A Go call: from the standard output before the call to the outcome and the
standard output after it. -/
def Exec (α : Type) : Type := Stdout → Outcome α × Stdout

/-- A call that returns `v` and writes nothing. -/
def Exec.pure {α : Type} (v : α) : Exec α := fun σ => (.ret v, σ)

/-- A call that panics with `p`. -/
def Exec.fault {α : Type} (p : Fault) : Exec α := fun σ => (.fault p, σ)

/-- Sequencing of statements: a panic in the first statement skips the rest. -/
def Exec.bind {α β : Type} (m : Exec α) (f : α → Exec β) : Exec β := fun σ =>
  match m σ with
  | (.ret v, σ1) => f v σ1
  | (.fault p, σ1) => (.fault p, σ1)

instance : Monad Exec where
  pure := Exec.pure
  bind := Exec.bind

/-- Process exit status given by the Go runtime: 0 when `main` returns, 2 when
the program dies of an unrecovered panic. -/
def exitCode (r : Outcome Unit) : Nat :=
  match r with
  | .ret _ => 0
  | .fault _ => 2

namespace fmt

/-- Go `fmt.Println(s)` for one string operand: writes the line `s`.  Its two
results are unused by the program and not modelled. -/
def Println (s : String) : Exec Unit := fun σ => (.ret (), σ ++ [s])

end fmt

/-! ## Interfaces (lines 47-55, 88-92) -/

/-- Go `type Sender interface { Send(buff []byte) error }`: a value of the
interface type is nil or carries the `Send` method of its dynamic value. -/
inductive Sender where
  | nil
  | dyn (Send : List byte → Exec error)

/-- Go `type Closer interface { Close() error }`. -/
inductive Closer where
  | nil
  | dyn (Close : Exec error)

/-- Go `type Connection interface { Sender; Closer }`: the union of the two
method sets. -/
inductive Connection where
  | nil
  | dyn (Send : List byte → Exec error) (Close : Exec error)

/-- True for the nil interface value. -/
def Sender.isNil : Sender → Bool
  | .nil => true
  | .dyn _ => false

/-- True for the nil interface value. -/
def Closer.isNil : Closer → Bool
  | .nil => true
  | .dyn _ => false

/-- Method call `s.Send(buff)` on an interface value. -/
def Sender.Send : Sender → List byte → Exec error
  | .nil, _ => Exec.fault .nilDereference
  | .dyn send, buff => send buff

/-- Method call `c.Close()` on an interface value. -/
def Closer.Close : Closer → Exec error
  | .nil => Exec.fault .nilDereference
  | .dyn close => close

/-- Method call `c.Send(buff)` on an interface value. -/
def Connection.Send : Connection → List byte → Exec error
  | .nil, _ => Exec.fault .nilDereference
  | .dyn send _, buff => send buff

/-- Method call `c.Close()` on an interface value. -/
def Connection.Close : Connection → Exec error
  | .nil => Exec.fault .nilDereference
  | .dyn _ close => close

/-! ## Capability implementations (lines 57-86) -/

/-- Go `type TCPSender struct{}`. -/
structure TCPSender where
deriving DecidableEq

/-- Go `type UPDSender struct{}`. -/
structure UPDSender where
deriving DecidableEq

/-- Go `type SafeCloser struct{}`. -/
structure SafeCloser where
deriving DecidableEq

/-- Go `type QuickCloser struct{}`. -/
structure QuickCloser where
deriving DecidableEq

/-- Go `func (tcps *TCPSender) Send(buff []byte) error`.  The receiver is never
dereferenced. -/
def TCPSender.Send (_tcps : Ptr TCPSender) (_buff : List byte) : Exec error := do
  fmt.Println "tcp send"
  return none

/-- Go `func (upds *UPDSender) Send(buff []byte) error`. -/
def UPDSender.Send (_upds : Ptr UPDSender) (_buff : List byte) : Exec error := do
  fmt.Println "udp send"
  return none

/-- Go `func (sc *SafeCloser) Close() error`. -/
def SafeCloser.Close (_sc : Ptr SafeCloser) : Exec error := do
  fmt.Println "safe close"
  return none

/-- Go `func (qc *QuickCloser) Close() error`. -/
def QuickCloser.Close (_qc : Ptr QuickCloser) : Exec error := do
  fmt.Println "quick close"
  return none

/-- Conversion of a `*TCPSender` to the interface `Sender`. -/
def TCPSender.toSender (p : Ptr TCPSender) : Sender := .dyn (TCPSender.Send p)

/-- Conversion of a `*UPDSender` to the interface `Sender`. -/
def UPDSender.toSender (p : Ptr UPDSender) : Sender := .dyn (UPDSender.Send p)

/-- Conversion of a `*SafeCloser` to the interface `Closer`. -/
def SafeCloser.toCloser (p : Ptr SafeCloser) : Closer := .dyn (SafeCloser.Close p)

/-- Conversion of a `*QuickCloser` to the interface `Closer`. -/
def QuickCloser.toCloser (p : Ptr QuickCloser) : Closer := .dyn (QuickCloser.Close p)

/-! ## Aggregates (lines 42-45, 94-97) -/

/-- Go `type AbstractConnection struct { Sender; Closer }`: two embedded
interface fields. -/
structure AbstractConnection where
  Sender : Style.Sender
  Closer : Style.Closer

/-- Promoted method: `a.Send(buff)` is `a.Sender.Send(buff)`. -/
def AbstractConnection.Send (a : AbstractConnection) (buff : List byte) : Exec error :=
  a.Sender.Send buff

/-- Promoted method: `a.Close()` is `a.Closer.Close()`. -/
def AbstractConnection.Close (a : AbstractConnection) : Exec error :=
  a.Closer.Close

/-- Conversion of an `AbstractConnection` value to the interface `Connection`. -/
def AbstractConnection.toConnection (a : AbstractConnection) : Connection :=
  .dyn (fun buff => a.Send buff) a.Close

/-- Go zero value `AbstractConnection{}`: both embedded interfaces are nil. -/
def AbstractConnection.zero : AbstractConnection :=
  { Sender := .nil, Closer := .nil }

/-- Go `type GRPCConnection struct { *TCPSender; Closer }`: an embedded pointer
to the concrete sender and an embedded interface. -/
structure GRPCConnection where
  TCPSender : Ptr Style.TCPSender
  Closer : Style.Closer

/-- Promoted method: `g.Send(buff)` is `g.TCPSender.Send(buff)`. -/
def GRPCConnection.Send (g : GRPCConnection) (buff : List byte) : Exec error :=
  Style.TCPSender.Send g.TCPSender buff

/-- Promoted method: `g.Close()` is `g.Closer.Close()`. -/
def GRPCConnection.Close (g : GRPCConnection) : Exec error :=
  g.Closer.Close

/-- Conversion of a `GRPCConnection` value to the interface `Connection`. -/
def GRPCConnection.toConnection (g : GRPCConnection) : Connection :=
  .dyn (fun buff => g.Send buff) g.Close

/-- Conversion of a `*GRPCConnection` to the interface `Connection`: the
promoted methods read the fields through the pointer, which panics when the
pointer is nil. -/
def GRPCConnection.ptrToConnection (p : Ptr GRPCConnection) : Connection :=
  .dyn
    (fun buff => match p with
      | none => Exec.fault .nilDereference
      | some g => g.Send buff)
    (match p with
      | none => Exec.fault .nilDereference
      | some g => g.Close)

/-- Go zero value `GRPCConnection{}`: nil pointer and nil interface. -/
def GRPCConnection.zero : GRPCConnection :=
  { TCPSender := none, Closer := .nil }

/-! ## The generic function and the driver (lines 7-40) -/

/-- Go `func closeConn(c Connection) { c.Close() }`. -/
def closeConn (c : Connection) : Exec Unit := do
  let _ ← c.Close
  return ()

/-- The composite literal of lines 10-13. -/
def connTCP : AbstractConnection :=
  { Sender := TCPSender.toSender (some {}), Closer := QuickCloser.toCloser (some {}) }

/-- The composite literal of lines 18-21. -/
def connUDP : AbstractConnection :=
  { Sender := UPDSender.toSender (some {}), Closer := SafeCloser.toCloser (some {}) }

/-- The composite literal of lines 26-29, with its address taken. -/
def grpcConn : Ptr GRPCConnection :=
  some { TCPSender := some {}, Closer := QuickCloser.toCloser (some {}) }

/-- The statements of `main` (lines 15-35) over arbitrary entities. -/
def driver (packet : List byte) (connTCP connUDP : AbstractConnection)
    (grpcConn : Ptr GRPCConnection) : Exec Unit := do
  let _ ← connTCP.Send packet
  let _ ← connTCP.Close
  let _ ← connUDP.Send packet
  let _ ← connUDP.Close
  closeConn connTCP.toConnection
  closeConn connUDP.toConnection
  closeConn (GRPCConnection.ptrToConnection grpcConn)

/-- Go `func main()`. -/
def main : Exec Unit := do
  let packet : List byte := [1, 2, 3]
  let connTCP : AbstractConnection :=
    { Sender := TCPSender.toSender (some {}), Closer := QuickCloser.toCloser (some {}) }
  let _ ← connTCP.Send packet
  let _ ← connTCP.Close
  let connUDP : AbstractConnection :=
    { Sender := UPDSender.toSender (some {}), Closer := SafeCloser.toCloser (some {}) }
  let _ ← connUDP.Send packet
  let _ ← connUDP.Close
  let grpcConn : Ptr GRPCConnection :=
    some { TCPSender := some {}, Closer := QuickCloser.toCloser (some {}) }
  closeConn connTCP.toConnection
  closeConn connUDP.toConnection
  closeConn (GRPCConnection.ptrToConnection grpcConn)

/-! ## The variants named by the specification -/

/-- The two sender implementations. -/
inductive SenderVariant where
  | TCPSender
  | UPDSender
deriving DecidableEq

/-- The two closer implementations. -/
inductive CloserVariant where
  | QuickCloser
  | SafeCloser
deriving DecidableEq

/-- The field value `&TCPSender{}` or `&UPDSender{}` held as a `Sender`. -/
def SenderVariant.new : SenderVariant → Sender
  | .TCPSender => Style.TCPSender.toSender (some {})
  | .UPDSender => Style.UPDSender.toSender (some {})

/-- The field value `&QuickCloser{}` or `&SafeCloser{}` held as a `Closer`. -/
def CloserVariant.new : CloserVariant → Closer
  | .QuickCloser => Style.QuickCloser.toCloser (some {})
  | .SafeCloser => Style.SafeCloser.toCloser (some {})

/-- The marker the specification assigns to each sender. -/
def SenderVariant.marker : SenderVariant → String
  | .TCPSender => "tcp send"
  | .UPDSender => "udp send"

/-- The marker the specification assigns to each closer. -/
def CloserVariant.marker : CloserVariant → String
  | .QuickCloser => "quick close"
  | .SafeCloser => "safe close"

/-- The `AbstractConnection` built from a sender and a closer variant. -/
def AbstractConnection.build (s : SenderVariant) (c : CloserVariant) : AbstractConnection :=
  { Sender := s.new, Closer := c.new }

/-- The `GRPCConnection` built from `&TCPSender{}` and a closer variant. -/
def GRPCConnection.build (c : CloserVariant) : GRPCConnection :=
  { TCPSender := some {}, Closer := c.new }

/-! ## Calls in sequence on one entity -/

/-- One operation of the sendable and closable surface. -/
inductive Op where
  | Send (buff : List byte)
  | Close

/-- The marker the specification expects from an operation on an entity built
from sender `s` and closer `c`. -/
def Op.marker (s : SenderVariant) (c : CloserVariant) : Op → String
  | .Send _ => s.marker
  | .Close => c.marker

/-- One operation on an `AbstractConnection`. -/
def AbstractConnection.perform (a : AbstractConnection) : Op → Exec error
  | .Send buff => a.Send buff
  | .Close => a.Close

/-- One operation on a `GRPCConnection`. -/
def GRPCConnection.perform (g : GRPCConnection) : Op → Exec error
  | .Send buff => g.Send buff
  | .Close => g.Close

/-- Statements `r1 := op1(); r2 := op2(); ...` run in order; the results are
collected. -/
def performAll (perform : Op → Exec error) : List Op → Exec (List error)
  | [] => pure []
  | op :: ops => do
    let e ← perform op
    let es ← performAll perform ops
    return e :: es

/-! ## Method sets and interface satisfaction -/

/-- The method names of the program. -/
inductive Method where
  | Send
  | Close
deriving DecidableEq

/-- The named types declared in `cmd/main.go`. -/
inductive Named where
  | TCPSender
  | UPDSender
  | SafeCloser
  | QuickCloser
  | GRPCConnection
  | AbstractConnection
  | Sender
  | Closer
  | Connection
deriving DecidableEq, Fintype

/-- The types of the values the program can form: a named type or a pointer
to one. -/
inductive GoType where
  | named (n : Named)
  | ptr (n : Named)
deriving DecidableEq, Fintype

/-- The method set of each type, by the rules of the Go language applied to
the declarations of `cmd/main.go`.

* The four capability structs declare their one method on the pointer
  receiver, so the struct type itself has an empty method set.
* `GRPCConnection` embeds `*TCPSender` and `Closer`; `AbstractConnection`
  embeds `Sender` and `Closer`.  Methods of an embedded pointer and of an
  embedded interface are promoted to the struct and to its pointer.
* An interface has the methods it lists or embeds; a pointer to an interface
  has none. -/
def methodSet : GoType → List Method
  | .named .TCPSender => []
  | .ptr .TCPSender => [.Send]
  | .named .UPDSender => []
  | .ptr .UPDSender => [.Send]
  | .named .SafeCloser => []
  | .ptr .SafeCloser => [.Close]
  | .named .QuickCloser => []
  | .ptr .QuickCloser => [.Close]
  | .named .GRPCConnection => [.Send, .Close]
  | .ptr .GRPCConnection => [.Send, .Close]
  | .named .AbstractConnection => [.Send, .Close]
  | .ptr .AbstractConnection => [.Send, .Close]
  | .named .Sender => [.Send]
  | .named .Closer => [.Close]
  | .named .Connection => [.Send, .Close]
  | .ptr .Sender => []
  | .ptr .Closer => []
  | .ptr .Connection => []

/-- A type implements an interface when its method set contains every method
of the interface. -/
def implements (t : GoType) (i : Named) : Bool :=
  (methodSet (.named i)).all (fun m => (methodSet t).contains m)

/-- The parameter type of `closeConn` (line 38). -/
def closeConn.paramType : Named := .Connection

/-- A call `closeConn(x)` type-checks when the type of `x` implements the
parameter type. -/
def closeConn.accepts (t : GoType) : Bool := implements t closeConn.paramType

/-! ## Sample implementations whose operations fail -/

/-- A `Connection` whose `Close` writes a line and returns a non-nil error. -/
def failingConnection : Connection :=
  .dyn (fun _ => pure none) (do
    fmt.Println "closing"
    return some "close failed")

/-- An `AbstractConnection` whose `Send` and `Close` both return a non-nil
error. -/
def failingEntity : AbstractConnection :=
  { Sender := .dyn (fun _ => do
      fmt.Println "sending"
      return some "send failed"),
    Closer := .dyn (do
      fmt.Println "closing"
      return some "close failed") }

/-- A `GRPCConnection` whose `Close` returns a non-nil error. -/
def failingGRPC : GRPCConnection :=
  { TCPSender := some {}, Closer := .dyn (pure (some "close failed")) }

/-! ## Auxiliary facts -/

/-- The driver `main` is the statement sequence `driver` run on the three
entities it constructs and the packet `[1, 2, 3]`. -/
theorem main_eq_driver : main = driver [1, 2, 3] connTCP connUDP grpcConn := rfl

/-- One operation on a built `AbstractConnection` returns nil and appends the
marker of the operation. -/
theorem AbstractConnection_perform_build (s : SenderVariant) (c : CloserVariant) (op : Op)
    (σ : Stdout) :
    (AbstractConnection.build s c).perform op σ = (.ret none, σ ++ [op.marker s c]) := by
  cases s <;> cases c <;> cases op <;> rfl

/-- One operation on a built `GRPCConnection` returns nil and appends the
marker of the operation. -/
theorem GRPCConnection_perform_build (c : CloserVariant) (op : Op) (σ : Stdout) :
    (GRPCConnection.build c).perform op σ
      = (.ret none, σ ++ [op.marker .TCPSender c]) := by
  cases c <;> cases op <;> rfl

/-- A sequence of operations each of which returns nil and appends one line
returns all nil and appends the lines in order. -/
theorem performAll_of_step (perform : Op → Exec error) (line : Op → String)
    (hstep : ∀ op σ, perform op σ = (.ret none, σ ++ [line op])) (ops : List Op) :
    ∀ σ : Stdout, performAll perform ops σ
      = (.ret (ops.map (fun _ => none)), σ ++ ops.map line) := by
  induction ops with
  | nil => intro σ; simp [performAll, pure, Exec.pure]
  | cons op ops ih =>
    intro σ
    simp [performAll, bind, Exec.bind, hstep, ih, pure, Exec.pure]

/-- The function `closeConn` runs the `Close` of its argument and drops the
returned error. -/
theorem closeConn_of_ret (c : Connection) (σ σ1 : Stdout) (e : error)
    (h : c.Close σ = (.ret e, σ1)) : closeConn c σ = (.ret (), σ1) := by
  simp [closeConn, bind, Exec.bind, h, pure, Exec.pure]

/-- A panic of `Close` passes through `closeConn`. -/
theorem closeConn_of_fault (c : Connection) (σ σ1 : Stdout) (p : Fault)
    (h : c.Close σ = (.fault p, σ1)) : closeConn c σ = (.fault p, σ1) := by
  simp [closeConn, bind, Exec.bind, h]

/-- The output of `closeConn` is the output of `Close`, and `closeConn`
completes exactly when `Close` does. -/
theorem closeConn_follows_Close (c : Connection) (σ : Stdout) :
    (closeConn c σ).2 = (c.Close σ).2 ∧
    (closeConn c σ).1.completed = (c.Close σ).1.completed := by
  rcases h : c.Close σ with ⟨r, σ1⟩
  cases r with
  | ret e => rw [closeConn_of_ret c σ σ1 e h]; exact ⟨rfl, rfl⟩
  | fault p => rw [closeConn_of_fault c σ σ1 p h]; exact ⟨rfl, rfl⟩

/-! ## Claims -/

/-- C1: for every `AbstractConnection` built with a sender `s` out of
`TCPSender`, `UPDSender` and a closer `c` out of `QuickCloser`, `SafeCloser`,
and every byte sequence `b`, `Send(b)` appends to standard output exactly one
line, the marker of `s`, and `Close()` appends exactly one line, the marker of
`c`. -/
theorem AbstractConnection_prints_marker (s : SenderVariant) (c : CloserVariant)
    (b : List byte) (σ : Stdout) :
    ((AbstractConnection.build s c).Send b σ).2 = σ ++ [s.marker] ∧
    ((AbstractConnection.build s c).Close σ).2 = σ ++ [c.marker] := by
  cases s <;> cases c <;> exact ⟨rfl, rfl⟩

/-- C2: the driver `main` writes exactly the seven lines "tcp send",
"quick close", "udp send", "safe close", "quick close", "safe close",
"quick close", in this order, after whatever was on standard output before,
and returns. -/
theorem main_prints_seven_lines :
    main [] = (.ret (), ["tcp send", "quick close", "udp send", "safe close",
      "quick close", "safe close", "quick close"]) ∧
    ∀ σ : Stdout, main σ = (.ret (), σ ++ ["tcp send", "quick close", "udp send",
      "safe close", "quick close", "safe close", "quick close"]) := by
  refine ⟨rfl, fun σ => ?_⟩
  simp [main, closeConn, bind, Exec.bind, pure, Exec.pure, fmt.Println, Connection.Close,
    AbstractConnection.toConnection, GRPCConnection.ptrToConnection, AbstractConnection.Close,
    AbstractConnection.Send, Sender.Send, Closer.Close, TCPSender.toSender, TCPSender.Send,
    UPDSender.toSender, UPDSender.Send, QuickCloser.toCloser, QuickCloser.Close,
    SafeCloser.toCloser, SafeCloser.Close, GRPCConnection.Close]

/-- C3, the claim refuted: `*QuickCloser` offers `Close`, yet a call
`closeConn(&QuickCloser{})` does not type-check, because the parameter type
`Connection` also requires `Send`. -/
theorem closeConn_rejects_closer_only :
    Method.Close ∈ methodSet (.ptr .QuickCloser) ∧
    closeConn.accepts (.ptr .QuickCloser) = false ∧
    ¬ (∀ t : GoType, Method.Close ∈ methodSet t → closeConn.accepts t = true) := by
  refine ⟨by decide, by decide, fun h => ?_⟩
  exact absurd (h (.ptr .QuickCloser) (by decide)) (by decide)

/-- C3, amended: `closeConn` accepts the interface `Connection`, which requires
both `Send` and `Close`; a type can be passed exactly when it offers both;
`AbstractConnection` and `GRPCConnection` (and pointers to them) are accepted,
and `closeConn` runs their `Close`: it writes what `Close` writes and completes
exactly when `Close` does. -/
theorem closeConn_accepts_Connection :
    methodSet (.named closeConn.paramType) = [.Send, .Close] ∧
    (∀ t : GoType, closeConn.accepts t = true ↔
      (Method.Send ∈ methodSet t ∧ Method.Close ∈ methodSet t)) ∧
    closeConn.accepts (.named .AbstractConnection) = true ∧
    closeConn.accepts (.ptr .AbstractConnection) = true ∧
    closeConn.accepts (.named .GRPCConnection) = true ∧
    closeConn.accepts (.ptr .GRPCConnection) = true ∧
    (∀ (a : AbstractConnection) (σ : Stdout),
      (closeConn a.toConnection σ).2 = (a.Close σ).2 ∧
      (closeConn a.toConnection σ).1.completed = (a.Close σ).1.completed) ∧
    (∀ (g : GRPCConnection) (σ : Stdout),
      (closeConn g.toConnection σ).2 = (g.Close σ).2 ∧
      (closeConn g.toConnection σ).1.completed = (g.Close σ).1.completed ∧
      (closeConn (GRPCConnection.ptrToConnection (some g)) σ).2 = (g.Close σ).2 ∧
      (closeConn (GRPCConnection.ptrToConnection (some g)) σ).1.completed
        = (g.Close σ).1.completed) := by
  refine ⟨rfl, by decide, rfl, rfl, rfl, rfl, fun a σ => ?_, fun g σ => ?_⟩
  · exact closeConn_follows_Close a.toConnection σ
  · exact ⟨(closeConn_follows_Close g.toConnection σ).1,
      (closeConn_follows_Close g.toConnection σ).2,
      (closeConn_follows_Close (GRPCConnection.ptrToConnection (some g)) σ).1,
      (closeConn_follows_Close (GRPCConnection.ptrToConnection (some g)) σ).2⟩

/-- C4: for every closer variant `c`, `closeConn` on a pointer to the
`GRPCConnection` built from `&TCPSender{}` and `c` returns and appends exactly
one line, the marker of `c`, which is no send marker; the outcome is the same
whatever `Send` method the connection carries, so `Send` is not run; for the
entity of `main` the line is "quick close". -/
theorem closeConn_GRPCConnection (c : CloserVariant) (σ : Stdout) :
    closeConn (GRPCConnection.ptrToConnection (some (GRPCConnection.build c))) σ
      = (.ret (), σ ++ [c.marker]) ∧
    c.marker ≠ "tcp send" ∧ c.marker ≠ "udp send" ∧
    (∀ send : List byte → Exec error,
      closeConn (.dyn send (GRPCConnection.build c).Close) σ = (.ret (), σ ++ [c.marker])) ∧
    closeConn (GRPCConnection.ptrToConnection grpcConn) σ = (.ret (), σ ++ ["quick close"]) := by
  cases c <;> exact ⟨rfl, by decide, by decide, fun _ => rfl, rfl⟩

/-- C5: the `GRPCConnection` embedding `&TCPSender{}` with closer `c` and the
`AbstractConnection` holding `&TCPSender{}` as a `Sender` with the same `c`
behave alike: `Send(b)`, `Close()` and `closeConn` give the same outcome and the
same standard output on both, and `Send` prints "tcp send". -/
theorem GRPCConnection_matches_AbstractConnection (c : CloserVariant) (b : List byte)
    (σ : Stdout) :
    (GRPCConnection.build c).Send b σ = (AbstractConnection.build .TCPSender c).Send b σ ∧
    (GRPCConnection.build c).Close σ = (AbstractConnection.build .TCPSender c).Close σ ∧
    closeConn (GRPCConnection.build c).toConnection σ
      = closeConn (AbstractConnection.build .TCPSender c).toConnection σ ∧
    closeConn (GRPCConnection.ptrToConnection (some (GRPCConnection.build c))) σ
      = closeConn (AbstractConnection.build .TCPSender c).toConnection σ ∧
    (GRPCConnection.build c).Send b σ = (.ret none, σ ++ ["tcp send"]) := by
  cases c <;> exact ⟨rfl, rfl, rfl, rfl, rfl⟩

/-- C6: every capability operation returns the nil error: the four methods do
so for every receiver, byte sequence and standard output, and so do `Send` and
`Close` called through every built `AbstractConnection` and `GRPCConnection`. -/
theorem capabilities_return_nil (b : List byte) (σ : Stdout) :
    (∀ p : Ptr TCPSender, (TCPSender.Send p b σ).1 = .ret none) ∧
    (∀ p : Ptr UPDSender, (UPDSender.Send p b σ).1 = .ret none) ∧
    (∀ p : Ptr SafeCloser, (SafeCloser.Close p σ).1 = .ret none) ∧
    (∀ p : Ptr QuickCloser, (QuickCloser.Close p σ).1 = .ret none) ∧
    (∀ (s : SenderVariant) (c : CloserVariant),
      ((AbstractConnection.build s c).Send b σ).1 = .ret none ∧
      ((AbstractConnection.build s c).Close σ).1 = .ret none) ∧
    (∀ c : CloserVariant,
      ((GRPCConnection.build c).Send b σ).1 = .ret none ∧
      ((GRPCConnection.build c).Close σ).1 = .ret none) := by
  refine ⟨fun _ => rfl, fun _ => rfl, fun _ => rfl, fun _ => rfl, fun s c => ?_, fun c => ?_⟩
  · cases s <;> cases c <;> exact ⟨rfl, rfl⟩
  · cases c <;> exact ⟨rfl, rfl⟩

/-- C7, the claim refuted: the zero values `AbstractConnection{}` and
`GRPCConnection{}` are entities with a nil `Sender` (a nil `*TCPSender`) and a
nil `Closer`, so not every value of these types is populated. -/
theorem partial_entity_exists :
    AbstractConnection.zero.Sender.isNil = true ∧
    AbstractConnection.zero.Closer.isNil = true ∧
    GRPCConnection.zero.TCPSender.isNone = true ∧
    GRPCConnection.zero.Closer.isNil = true ∧
    ¬ (∀ a : AbstractConnection, a.Sender.isNil = false ∧ a.Closer.isNil = false) ∧
    ¬ (∀ g : GRPCConnection, g.TCPSender.isSome = true ∧ g.Closer.isNil = false) := by
  refine ⟨rfl, rfl, rfl, rfl, fun h => ?_, fun h => ?_⟩
  · exact absurd (h AbstractConnection.zero).1 (by decide)
  · exact absurd (h GRPCConnection.zero).2 (by decide)

/-- C7, amended: every entity that `main` constructs, and every entity built
from the concrete variants, has its sender field and its closer field populated
with a non-nil capability instance. -/
theorem constructed_entities_populated :
    main = driver [1, 2, 3] connTCP connUDP grpcConn ∧
    connTCP.Sender.isNil = false ∧ connTCP.Closer.isNil = false ∧
    connUDP.Sender.isNil = false ∧ connUDP.Closer.isNil = false ∧
    (∃ g : GRPCConnection, grpcConn = some g ∧
      g.TCPSender.isSome = true ∧ g.Closer.isNil = false) ∧
    (∀ (s : SenderVariant) (c : CloserVariant),
      (AbstractConnection.build s c).Sender.isNil = false ∧
      (AbstractConnection.build s c).Closer.isNil = false) ∧
    (∀ c : CloserVariant,
      (GRPCConnection.build c).TCPSender.isSome = true ∧
      (GRPCConnection.build c).Closer.isNil = false) := by
  refine ⟨rfl, rfl, rfl, rfl, rfl, ⟨_, rfl, rfl, rfl⟩, fun s c => ?_, fun c => ?_⟩
  · cases s <;> cases c <;> exact ⟨rfl, rfl⟩
  · cases c <;> exact ⟨rfl, rfl⟩

/-- C8, the claim refuted: `closeConn` does not complete normally for every
`Connection`.  On the nil `Connection`, and on the zero `AbstractConnection`
(whose `Closer` is nil), the call `c.Close()` panics with a nil dereference and
so does `closeConn`. -/
theorem closeConn_panics_on_nil :
    closeConn Connection.nil [] = (.fault .nilDereference, []) ∧
    closeConn AbstractConnection.zero.toConnection [] = (.fault .nilDereference, []) ∧
    ¬ (∀ (c : Connection) (σ : Stdout), (closeConn c σ).1.completed = true) := by
  refine ⟨rfl, rfl, fun h => ?_⟩
  exact absurd (h Connection.nil []) (by decide)

/-- C8, amended: for every `Connection` `c` whose `Close` returns, with a nil
or a non-nil error `e`, `closeConn(c)` returns normally, yields nothing, and
leaves standard output exactly as `c.Close` left it; and whenever the seven
calls of the driver return, with whatever errors `e1` to `e7`, the driver
returns normally with the output of the seventh call. -/
theorem closeConn_discards_error (c : Connection) (t u : AbstractConnection)
    (g : GRPCConnection) (packet : List byte) (e e1 e2 e3 e4 e5 e6 e7 : error)
    (σ σ1 s0 s1 s2 s3 s4 s5 s6 s7 : Stdout)
    (h : c.Close σ = (.ret e, σ1))
    (h1 : t.Send packet s0 = (.ret e1, s1))
    (h2 : t.Close s1 = (.ret e2, s2))
    (h3 : u.Send packet s2 = (.ret e3, s3))
    (h4 : u.Close s3 = (.ret e4, s4))
    (h5 : t.Close s4 = (.ret e5, s5))
    (h6 : u.Close s5 = (.ret e6, s6))
    (h7 : g.Close s6 = (.ret e7, s7)) :
    closeConn c σ = (.ret (), σ1) ∧
    driver packet t u (some g) s0 = (.ret (), s7) := by
  refine ⟨closeConn_of_ret c σ σ1 e h, ?_⟩
  have k5 : closeConn t.toConnection s4 = (.ret (), s5) :=
    closeConn_of_ret t.toConnection s4 s5 e5 h5
  have k6 : closeConn u.toConnection s5 = (.ret (), s6) :=
    closeConn_of_ret u.toConnection s5 s6 e6 h6
  have k7 : closeConn (GRPCConnection.ptrToConnection (some g)) s6 = (.ret (), s7) :=
    closeConn_of_ret (GRPCConnection.ptrToConnection (some g)) s6 s7 e7 h7
  simp [driver, bind, Exec.bind, h1, h2, h3, h4, k5, k6, k7]

/-- Witness of C8, amended: a connection and entities whose operations return
non-nil errors. -/
theorem closeConn_discards_error_witness :
    failingConnection.Close [] = (.ret (some "close failed"), ["closing"]) ∧
    closeConn failingConnection [] = (.ret (), ["closing"]) ∧
    driver [1, 2, 3] failingEntity connUDP (some failingGRPC) []
      = (.ret (), ["sending", "closing", "udp send", "safe close", "closing",
          "safe close"]) :=
  ⟨rfl,
   closeConn_discards_error failingConnection failingEntity connUDP failingGRPC [1, 2, 3]
    (some "close failed") (some "send failed") (some "close failed") none none
    (some "close failed") none (some "close failed")
    [] ["closing"] [] ["sending"] ["sending", "closing"]
    ["sending", "closing", "udp send"]
    ["sending", "closing", "udp send", "safe close"]
    ["sending", "closing", "udp send", "safe close", "closing"]
    ["sending", "closing", "udp send", "safe close", "closing", "safe close"]
    ["sending", "closing", "udp send", "safe close", "closing", "safe close"]
    rfl rfl rfl rfl rfl rfl rfl rfl⟩

/-- C9: for every `AbstractConnection` and every `GRPCConnection` whose fields
hold the concrete variants, `Send` (for every byte sequence), `Close` and
`closeConn` return without a panic; `main` returns, so the exit code is 0. -/
theorem populated_entities_do_not_panic (s : SenderVariant) (c : CloserVariant)
    (b : List byte) (σ : Stdout) :
    ((AbstractConnection.build s c).Send b σ).1.completed = true ∧
    ((AbstractConnection.build s c).Close σ).1.completed = true ∧
    (closeConn (AbstractConnection.build s c).toConnection σ).1.completed = true ∧
    ((GRPCConnection.build c).Send b σ).1.completed = true ∧
    ((GRPCConnection.build c).Close σ).1.completed = true ∧
    (closeConn (GRPCConnection.build c).toConnection σ).1.completed = true ∧
    (closeConn (GRPCConnection.ptrToConnection (some (GRPCConnection.build c))) σ).1.completed
      = true ∧
    (main σ).1.completed = true ∧
    exitCode (main σ).1 = 0 := by
  cases s <;> cases c <;> exact ⟨rfl, rfl, rfl, rfl, rfl, rfl, rfl, rfl, rfl⟩

/-- C10: operations are stateless.  Any sequence of `Send` and `Close` calls on
one entity built from the concrete variants, started on any standard output,
returns nil from every call and appends for every call the marker of that
call, whatever was called before; so a second `Close` after a first prints the
closer marker again and returns nil, and a `Send` after a `Close` prints the
sender marker and returns nil.  The entity is the same value at every call: the
methods receive it, return only an error and assign to none of its fields. -/
theorem operations_are_stateless (s : SenderVariant) (c : CloserVariant) (b : List byte)
    (ops : List Op) (σ : Stdout) :
    performAll (AbstractConnection.build s c).perform ops σ
      = (.ret (ops.map (fun _ => none)), σ ++ ops.map (Op.marker s c)) ∧
    performAll (GRPCConnection.build c).perform ops σ
      = (.ret (ops.map (fun _ => none)), σ ++ ops.map (Op.marker .TCPSender c)) ∧
    performAll (AbstractConnection.build s c).perform [.Close, .Close] σ
      = (.ret [none, none], σ ++ [c.marker, c.marker]) ∧
    performAll (AbstractConnection.build s c).perform [.Close, .Send b] σ
      = (.ret [none, none], σ ++ [c.marker, s.marker]) ∧
    performAll (GRPCConnection.build c).perform [.Close, .Close] σ
      = (.ret [none, none], σ ++ [c.marker, c.marker]) ∧
    performAll (GRPCConnection.build c).perform [.Close, .Send b] σ
      = (.ret [none, none], σ ++ [c.marker, "tcp send"]) := by
  have ha := performAll_of_step (AbstractConnection.build s c).perform (Op.marker s c)
    (AbstractConnection_perform_build s c)
  have hg := performAll_of_step (GRPCConnection.build c).perform (Op.marker .TCPSender c)
    (GRPCConnection_perform_build c)
  exact ⟨ha ops σ, hg ops σ, ha _ σ, ha _ σ, hg _ σ, hg _ σ⟩

end Style
